import Mathlib

/-!
Shallow embedding of the credit-default inference pipeline
(`credit_default_model/model.py` and `app/services/prediction_service.py`).

Tabular payloads are modelled as frames of cells; pandas/numpy behaviour
relevant to validation and scoring is embedded explicitly:
  * `DataFrame.replace(r"^\s*$", pd.NA, regex=True)` — blank strings become
    the null sentinel, string cells only;
  * `pd.to_numeric(..., errors="raise")` — per-column numeric parsing that
    raises a plain ValueError naming the offending value and its position
    (not a `ValidationError`, and not naming the column);
  * `.astype("int64")` on a column holding NaN — raises
    `IntCastingNaNError` (again a plain pandas error);
  * `probabilities[:, 1]` — unchecked positive-class column extraction,
    raising `IndexError` when fewer than two class columns exist and
    silently selecting class index 1 when more exist.
-/

set_option autoImplicit false

namespace CreditDefault

/-- A raw table cell: string, integer, numeric (float, modelled as a
rational), or the null sentinel (None / NaN / pd.NA). -/
inductive Cell where
  | str (s : String)
  | int (n : Int)
  | rat (q : ℚ)
  | null
  deriving DecidableEq, Repr

/-- Errors raised along the pipeline.  The first six mirror
`ValidationError` messages raised in `_prepare_features`; `unableToParse`,
`intCastingNaN`, `indexError` and `seriesLengthMismatch` are raw
pandas/numpy exceptions that are NOT `ValidationError`s; `batchTooLarge`
is the service-level `PredictionError` raised in `predict_batch`. -/
inductive Err where
  | missingIdColumn (idCol : String)
  | labelColumnNotAllowed
  | missingColumns (cols : List String)
  | unsupportedDtype (dtype col : String)
  | missingValues
  | missingIdentifier
  | unableToParse (value : String) (position : Nat)
  | intCastingNaN
  | indexError
  | seriesLengthMismatch
  | batchTooLarge (observed limit : Nat)
  deriving DecidableEq, Repr

/-- Whether the error is an instance of the model package's
`ValidationError` class (caught by the service and turned into a client
rejection).  Raw pandas/numpy exceptions and the service-level
`batchTooLarge` are not. -/
def Err.isModelValidationError : Err → Bool
  | .missingIdColumn _ => true
  | .labelColumnNotAllowed => true
  | .missingColumns _ => true
  | .unsupportedDtype _ _ => true
  | .missingValues => true
  | .missingIdentifier => true
  | _ => false

/-- Human-readable message, mirroring the exception messages in the
source (f-strings in `model.py`, pandas for `unableToParse`, and the
`PredictionError` f-string in `prediction_service.py`). -/
def Err.message : Err → String
  | .missingIdColumn c => "Missing identifier column: " ++ c ++ "."
  | .labelColumnNotAllowed =>
      "Column \x27default\x27 is not allowed in inference payloads."
  | .missingColumns cols => "Missing columns: " ++ String.intercalate ", " cols ++ "."
  | .unsupportedDtype dt c =>
      "Unsupported dtype \x27" ++ dt ++ "\x27 for column \x27" ++ c ++ "\x27."
  | .missingValues => "Input payload contains missing values."
  | .missingIdentifier => "Identifier column contains missing values."
  | .unableToParse v p =>
      "Unable to parse string \x22" ++ v ++ "\x22 at position " ++ toString p
  | .intCastingNaN => "Cannot convert non-finite values (NA or inf) to integer"
  | .indexError => "index 1 is out of bounds"
  | .seriesLengthMismatch => "Length of values does not match length of index"
  | .batchTooLarge n limit =>
      "Batch size " ++ toString n ++ " exceeds limit of " ++ toString limit ++ " rows."

/-- A raw tabular payload: ordered column names and row-major cells
(each row is positionally aligned with `cols`). -/
structure RawFrame where
  cols : List String
  rows : List (List Cell)
  deriving Repr

/-- The validated feature matrix handed to the estimator: the expected
column names in signature order, the preserved row count (pandas index
length), and column-major coerced data. -/
structure FeatureFrame where
  colNames : List String
  numRows : Nat
  colsData : List (List Cell)
  deriving DecidableEq, Repr

/-- A scored output row of `CreditDefaultModel.score`. -/
structure PredictionRecord where
  id : String
  probability : ℚ
  is_default : Bool
  deriving DecidableEq, Repr

/-- The loaded model: signature (expected columns, dtype map in JSON
insertion order, identifier column name), metadata threshold, and the
opaque estimator exposing `predict_proba` (per-row class probabilities). -/
structure Model where
  expectedColumns : List String
  dtypes : List (String × String)
  idColumn : String
  threshold : ℚ
  estimator : FeatureFrame → List (List ℚ)

/-! ### Per-cell helpers -/

/-- Python regex `\s` on the characters that can appear in payloads. -/
def isPyWhitespace (c : Char) : Bool :=
  c = ' ' || c = '\t' || c = '\n' || c = '\x0d' || c = '\x0b' || c = '\x0c'

/-- Does the string match `^\s*$` (empty or whitespace-only)? -/
def isBlankString (s : String) : Bool :=
  s.toList.all isPyWhitespace

/-- `DataFrame.replace(r"^\s*$", pd.NA, regex=True)`: blank string cells
become null; every other cell is untouched. -/
def replaceBlank (c : Cell) : Cell :=
  match c with
  | .str s => if isBlankString s then .null else .str s
  | c => c

/-- Accumulate decimal digits. -/
def digitsToNat : List Char → Nat → Nat
  | [], acc => acc
  | c :: rest, acc => digitsToNat rest (acc * 10 + (c.toNat - '0'.toNat))

/-- Parse an optional leading sign; returns (isNegative, rest). -/
def parseSign : List Char → Bool × List Char
  | '-' :: rest => (true, rest)
  | '+' :: rest => (false, rest)
  | l => (false, l)

/-- Parse the digits-and-optional-point mantissa of a numeric literal. -/
def parseMantissa (l : List Char) : Option (ℚ × List Char) :=
  let p := l.span (fun c => c.isDigit)
  match p.2 with
  | '.' :: r2 =>
    let pf := r2.span (fun c => c.isDigit)
    if p.1.isEmpty && pf.1.isEmpty then none
    else
      some ((digitsToNat p.1 0 : ℚ) + (digitsToNat pf.1 0 : ℚ) / ((10 : ℚ) ^ pf.1.length),
        pf.2)
  | _ => if p.1.isEmpty then none else some ((digitsToNat p.1 0 : ℚ), p.2)

/-- Parse an optional exponent part (`e`/`E`, optional sign, digits). -/
def parseExponent : List Char → Option (Int × List Char)
  | [] => some (0, [])
  | c :: rest =>
    if c = 'e' || c = 'E' then
      let sr := parseSign rest
      let pd := sr.2.span (fun ch => ch.isDigit)
      if pd.1.isEmpty then none
      else
        let e : Int := (digitsToNat pd.1 0 : Int)
        some ((if sr.1 then -e else e), pd.2)
    else some (0, c :: rest)

/-- Scale a rational by a (possibly negative) power of ten. -/
def scalePow10 (q : ℚ) (e : Int) : ℚ :=
  if e ≥ 0 then q * (10 : ℚ) ^ e.toNat else q / (10 : ℚ) ^ (-e).toNat

/-- The numeric-string parser behind `pd.to_numeric`: optional sign,
decimal mantissa, optional exponent; surrounding whitespace tolerated. -/
def parseNumeric? (s : String) : Option ℚ :=
  let l := s.trim.toList
  let sr := parseSign l
  match parseMantissa sr.2 with
  | none => none
  | some (mant, r1) =>
    match parseExponent r1 with
    | none => none
    | some (e, r2) =>
      if r2.isEmpty then
        let v := scalePow10 mant e
        some (if sr.1 then -v else v)
      else none

/-- `pd.to_numeric` on one cell: `none` means the cell is unparsable
(raises), `some none` means a missing value passed through as NaN. -/
def toNumericCell : Cell → Option (Option ℚ)
  | .null => some none
  | .int n => some (some (n : ℚ))
  | .rat q => some (some q)
  | .str s =>
    match parseNumeric? s with
    | some q => some (some q)
    | none => none

/-- The string an unparsable cell is reported with (pandas interpolates
the raw value into the ValueError message). -/
def cellRawString : Cell → String
  | .str s => s
  | .int n => toString n
  | .rat q => toString q
  | .null => "nan"

/-- `pd.to_numeric(column, errors="raise")`: parse every cell, raising at
the first unparsable one with its value and position. -/
def toNumericColumn : List Cell → Nat → Except Err (List (Option ℚ))
  | [], _ => .ok []
  | c :: rest, pos =>
    match toNumericCell c with
    | none => .error (.unableToParse (cellRawString c) pos)
    | some o =>
      match toNumericColumn rest (pos + 1) with
      | .error e => .error e
      | .ok l => .ok (o :: l)

/-- Truncate a rational toward zero (the numpy float→int64 cast). -/
def ratTrunc (q : ℚ) : Int :=
  if q ≥ 0 then ⌊q⌋ else -⌊-q⌋

/-- `str(...)` rendering used for identifiers (`astype(str)`). -/
def cellToString : Cell → String
  | .str s => s
  | .int n => toString n
  | .rat q => if q.den = 1 then toString q.num ++ ".0" else toString q
  | .null => "nan"

/-! ### Frame helpers -/

/-- Position of a column name in an ordered header (first occurrence),
the pandas label→position lookup. -/
def findCol : List String → String → Option Nat
  | [], _ => none
  | a :: rest, c => if a = c then some 0 else (findCol rest c).map (· + 1)

/-- The cells of column `c`, one per row, in row order (`frame[c]`). -/
def rawColumn (f : RawFrame) (c : String) : List Cell :=
  match findCol f.cols c with
  | some i => f.rows.map (fun r => r.getD i Cell.null)
  | none => []

/-- The raw identifier cells of the frame in row order
(`frame[self._id_column]`, before any rendering). -/
def rawIdCells (m : Model) (f : RawFrame) : List Cell :=
  rawColumn f m.idColumn

/-! ### Validation and coercion (`_prepare_features`) -/

/-- One iteration of the dtype loop body: coerce a single column
according to its declared dtype. -/
def coerceColumn (dtype col : String) (cells : List Cell) : Except Err (List Cell) :=
  if dtype.startsWith "int" then
    match toNumericColumn cells 0 with
    | .error e => .error e
    | .ok vals =>
      if vals.any (fun o => decide (o = none)) then .error .intCastingNaN
      else .ok (vals.map (fun o => Cell.int (ratTrunc (o.getD 0))))
  else if dtype.startsWith "float" then
    match toNumericColumn cells 0 with
    | .error e => .error e
    | .ok vals =>
      .ok (vals.map (fun o =>
        match o with
        | some q => Cell.rat q
        | none => Cell.null))
  else if dtype = "category" then .ok cells
  else .error (.unsupportedDtype dtype col)

/-- The dtype loop of `_prepare_features`: walk the signature's dtype map
in insertion order, skipping names outside the projected columns, and
rewrite each matching column in place. -/
def applyDtypes (expected : List String) :
    List (String × String) → List (List Cell) → Except Err (List (List Cell))
  | [], cols => .ok cols
  | (c, dt) :: rest, cols =>
    match findCol expected c with
    | none => applyDtypes expected rest cols
    | some j =>
      match coerceColumn dt c (cols.getD j []) with
      | .error e => .error e
      | .ok newCol => applyDtypes expected rest (cols.set j newCol)

/-- `CreditDefaultModel._prepare_features`: the full validation sequence
in source order — identifier column present, label column absent, all
expected columns present (reporting every missing one), projection onto
the expected columns with blank-string→null replacement, dtype coercion,
residual-null rejection, identifier-null rejection, identifiers rendered
to strings. -/
def prepare (m : Model) (f : RawFrame) :
    Except Err (FeatureFrame × List String) :=
  if m.idColumn ∈ f.cols then
    if "default" ∈ f.cols then .error .labelColumnNotAllowed
    else
      let missing := m.expectedColumns.filter (fun c => decide (c ∉ f.cols))
      if missing.isEmpty then
        let cols0 := m.expectedColumns.map (fun c => (rawColumn f c).map replaceBlank)
        match applyDtypes m.expectedColumns m.dtypes cols0 with
        | .error e => .error e
        | .ok cols1 =>
          if cols1.any (fun col => col.any (fun c => decide (c = Cell.null))) then
            .error .missingValues
          else
            let idCells := rawIdCells m f
            if idCells.any (fun c => decide (c = Cell.null)) then
              .error .missingIdentifier
            else
              .ok (⟨m.expectedColumns, f.rows.length, cols1⟩,
                idCells.map cellToString)
      else .error (.missingColumns missing)
  else .error (.missingIdColumn m.idColumn)

/-! ### Scoring -/

/-- `CreditDefaultModel._predict_proba`: invoke the estimator, take
`probabilities[:, 1]` (IndexError when a row has fewer than two class
columns; otherwise class index 1, whatever the class count), and build a
Series on the features index (length mismatch raises). -/
def predictProbaInner (m : Model) (ff : FeatureFrame) : Except Err (List ℚ) :=
  let probs := m.estimator ff
  if probs.any (fun r => decide (r.length < 2)) then .error .indexError
  else if probs.length = ff.numRows then
    .ok (probs.map (fun r => r.getD 1 0))
  else .error .seriesLengthMismatch

/-- `CreditDefaultModel.predict_proba`: prepare, then positive-class
probabilities, indexed by the input rows. -/
def predictProba (m : Model) (f : RawFrame) : Except Err (List ℚ) :=
  match prepare m f with
  | .error e => .error e
  | .ok (ff, _) => predictProbaInner m ff

/-- `CreditDefaultModel.score`: prepare, probabilities, then one record
per row with the rendered identifier, the probability, and
`is_default = probability >= threshold`. -/
def score (m : Model) (f : RawFrame) : Except Err (List PredictionRecord) :=
  match prepare m f with
  | .error e => .error e
  | .ok (ff, ids) =>
    match predictProbaInner m ff with
    | .error e => .error e
    | .ok probs =>
      .ok ((ids.zip probs).map (fun p => ⟨p.1, p.2, decide (m.threshold ≤ p.2)⟩))

/-- `PredictionService.predict_batch` after file parsing: the batch-size
guard runs before the model is invoked at all; within limits, scoring
proceeds as in `score`. -/
def predictBatch (maxRows : Nat) (m : Model) (f : RawFrame) :
    Except Err (List PredictionRecord) :=
  if maxRows < f.rows.length then .error (.batchTooLarge f.rows.length maxRows)
  else score m f

/-! ### Decidability of result comparison -/

instance {ε α : Type _} [DecidableEq ε] [DecidableEq α] : DecidableEq (Except ε α)
  | .ok a, .ok b =>
    match decEq a b with
    | isTrue h => isTrue (by rw [h])
    | isFalse h => isFalse (fun hc => h (by injection hc))
  | .ok _, .error _ => isFalse (fun hc => Except.noConfusion hc)
  | .error _, .ok _ => isFalse (fun hc => Except.noConfusion hc)
  | .error e, .error f =>
    match decEq e f with
    | isTrue h => isTrue (by rw [h])
    | isFalse h => isFalse (fun hc => h (by injection hc))

/-! ### Concrete fixtures

A small loaded model mirroring the spec's concrete scenario (signature
`["LIMIT_BAL", "AGE"]`, dtypes float/int, id column `"ID"`, threshold
`0.5`, a binary estimator that assigns positive-class probability
`0.73`), plus payload frames exercising the validation branches. -/

/-- Fixture model with a well-behaved binary estimator. -/
def testModel : Model where
  expectedColumns := ["LIMIT_BAL", "AGE"]
  dtypes := [("LIMIT_BAL", "float"), ("AGE", "int")]
  idColumn := "ID"
  threshold := 1 / 2
  estimator := fun ff => List.replicate ff.numRows [27 / 100, 73 / 100]

/-- Fixture model whose estimator returns three class columns per row
(a three-class classifier). -/
def threeClassModel : Model where
  expectedColumns := ["LIMIT_BAL", "AGE"]
  dtypes := [("LIMIT_BAL", "float"), ("AGE", "int")]
  idColumn := "ID"
  threshold := 1 / 2
  estimator := fun ff => List.replicate ff.numRows [1 / 5, 3 / 10, 1 / 2]

/-- Fixture model whose estimator returns a single class column per row. -/
def oneColumnModel : Model where
  expectedColumns := ["LIMIT_BAL", "AGE"]
  dtypes := [("LIMIT_BAL", "float"), ("AGE", "int")]
  idColumn := "ID"
  threshold := 1 / 2
  estimator := fun ff => List.replicate ff.numRows [7 / 10]

/-- A fully valid single-row payload. -/
def goodFrame : RawFrame where
  cols := ["ID", "LIMIT_BAL", "AGE"]
  rows := [[.int 1001, .str "200000", .str "35"]]

/-- Two-row batch whose second row has an empty string in the
int-declared column `AGE`. -/
def blankAgeFrame : RawFrame where
  cols := ["ID", "LIMIT_BAL", "AGE"]
  rows := [[.int 1, .str "100", .str "40"], [.int 2, .str "200", .str ""]]

/-- Single-row payload with an empty string in the float-declared column
`LIMIT_BAL`. -/
def blankLimitFrame : RawFrame where
  cols := ["ID", "LIMIT_BAL", "AGE"]
  rows := [[.int 1, .str "", .str "40"]]

/-- Single-row payload with an unparsable value in the int-declared
column `AGE`. -/
def abcFrame : RawFrame where
  cols := ["ID", "LIMIT_BAL", "AGE"]
  rows := [[.int 1, .str "100", .str "abc"]]

/-- Valid payload whose identifier value is a whitespace-only string. -/
def blankIdFrame : RawFrame where
  cols := ["ID", "LIMIT_BAL", "AGE"]
  rows := [[.str "  ", .str "100", .str "40"]]

/-- Payload missing both the identifier column and the expected column
`AGE`. -/
def missingBothFrame : RawFrame where
  cols := ["LIMIT_BAL"]
  rows := [[.str "100"]]

/-- Valid payload carrying an unrecognized extra column. -/
def extraColFrame : RawFrame where
  cols := ["ID", "EXTRA", "LIMIT_BAL", "AGE"]
  rows := [[.int 7, .str "noise", .str "100", .str "40"]]

/-- Fixture model whose signature declares an unsupported dtype
(`"object"`) for `AGE`. -/
def objModel : Model :=
  { testModel with dtypes := [("AGE", "object")] }

/-! ### Structural lemmas about the pipeline -/

theorem findCol_eq_none_iff (l : List String) (c : String) :
    findCol l c = none ↔ c ∉ l := by
  induction l with
  | nil => simp [findCol]
  | cons a t ih =>
    simp only [findCol, List.mem_cons]
    by_cases h : a = c
    · simp [h]
    · simp only [if_neg h, Option.map_eq_none', ih]
      constructor
      · intro hn
        rintro (rfl | hm)
        · exact h rfl
        · exact hn hm
      · intro hn hm
        exact hn (Or.inr hm)

theorem rawColumn_length (f : RawFrame) (c : String) (h : c ∈ f.cols) :
    (rawColumn f c).length = f.rows.length := by
  unfold rawColumn
  rcases hf : findCol f.cols c with _ | i
  · exact absurd h ((findCol_eq_none_iff _ _).1 hf)
  · simp [hf]

/-- Success form of `_predict_proba`: the returned probabilities are the
second class column of the estimator output, one per input row. -/
theorem predictProbaInner_ok_spec (m : Model) (ff : FeatureFrame)
    (probs : List ℚ) (h : predictProbaInner m ff = .ok probs) :
    probs.length = ff.numRows ∧
    probs = (m.estimator ff).map (fun r => r.getD 1 0) := by
  simp only [predictProbaInner] at h
  split at h
  · exact absurd h (by simp)
  · split at h
    · next hlen =>
      obtain rfl : (m.estimator ff).map (fun r => r.getD 1 0) = probs := by
        injection h
      exact ⟨by simpa using hlen, rfl⟩
    · exact absurd h (by simp)

/-- Success form of `_prepare_features`: on acceptance the feature frame
carries the expected columns in signature order over the original row
count, and the identifiers are the raw identifier cells rendered to
strings. -/
theorem prepare_ok_spec (m : Model) (f : RawFrame) (ff : FeatureFrame)
    (ids : List String) (h : prepare m f = .ok (ff, ids)) :
    m.idColumn ∈ f.cols ∧
    ff.colNames = m.expectedColumns ∧
    ff.numRows = f.rows.length ∧
    ids = (rawIdCells m f).map cellToString ∧
    ids.length = f.rows.length ∧
    (∀ col ∈ ff.colsData, ∀ c ∈ col, c ≠ Cell.null) := by
  simp only [prepare] at h
  split at h
  · next hid =>
    split at h
    · exact absurd h (by simp)
    · split at h
      · split at h
        · exact absurd h (by simp)
        · next cols1 hdt =>
          split at h
          · exact absurd h (by simp)
          · next hnull =>
            split at h
            · exact absurd h (by simp)
            · rw [Except.ok.injEq, Prod.mk.injEq] at h
              obtain ⟨hff, hids⟩ := h
              refine ⟨hid, ?_, ?_, ?_, ?_, ?_⟩
              · rw [← hff]
              · rw [← hff]
              · rw [← hids]
              · rw [← hids]
                simp [rawIdCells, rawColumn_length f m.idColumn hid]
              · rw [← hff]
                intro col hcol c hc hceq
                exact hnull (List.any_eq_true.2
                  ⟨col, hcol, List.any_eq_true.2 ⟨c, hc, by simp [hceq]⟩⟩)
      · exact absurd h (by simp)
  · exact absurd h (by simp)

/-- Success form of `score`: the records are identifiers zipped with
probabilities, flagged against the threshold. -/
theorem score_ok_spec (m : Model) (f : RawFrame)
    (recs : List PredictionRecord) (h : score m f = .ok recs) :
    ∃ ff ids probs,
      prepare m f = .ok (ff, ids) ∧
      predictProbaInner m ff = .ok probs ∧
      recs = (ids.zip probs).map
        (fun p => ⟨p.1, p.2, decide (m.threshold ≤ p.2)⟩) := by
  simp only [score] at h
  split at h
  · exact absurd h (by simp)
  · next ff ids hp =>
    split at h
    · exact absurd h (by simp)
    · next probs hq =>
      refine ⟨ff, ids, probs, hp, hq, ?_⟩
      rw [Except.ok.injEq] at h
      exact h.symm

/-- The only error `pd.to_numeric(..., errors="raise")` can raise is the
parse ValueError carrying the offending value and its position. -/
theorem toNumericColumn_error_classes (cells : List Cell) (pos : Nat) (e : Err)
    (h : toNumericColumn cells pos = .error e) :
    ∃ v p, e = .unableToParse v p := by
  induction cells generalizing pos with
  | nil => exact absurd h (by simp [toNumericColumn])
  | cons c rest ih =>
    simp only [toNumericColumn] at h
    split at h
    · rw [Except.error.injEq] at h
      exact ⟨cellRawString c, pos, h.symm⟩
    · split at h
      · next e' he =>
        rw [Except.error.injEq] at h
        exact ih (pos + 1) (h ▸ he)
      · exact absurd h (by simp)

/-- A column coercion succeeds only for a supported declared dtype. -/
theorem coerceColumn_ok_supported (dt c : String) (cells res : List Cell)
    (h : coerceColumn dt c cells = .ok res) :
    dt.startsWith "int" = true ∨ dt.startsWith "float" = true ∨
      dt = "category" := by
  simp only [coerceColumn] at h
  split at h
  · next hc => exact Or.inl hc
  · split at h
    · next hc => exact Or.inr (Or.inl hc)
    · split at h
      · next hc => exact Or.inr (Or.inr hc)
      · exact absurd h (by simp)

/-- The errors a column coercion can raise: the parser's ValueError, the
int-cast-on-NaN error, or the unsupported-dtype ValidationError (the
latter exactly when the declared dtype is outside the supported set). -/
theorem coerceColumn_error_classes (dt c : String) (cells : List Cell) (e : Err)
    (h : coerceColumn dt c cells = .error e) :
    (∃ v p, e = .unableToParse v p) ∨ e = .intCastingNaN ∨
    (e = .unsupportedDtype dt c ∧ dt.startsWith "int" = false ∧
      dt.startsWith "float" = false ∧ dt ≠ "category") := by
  simp only [coerceColumn] at h
  split at h
  · split at h
    · next e' he =>
      rw [Except.error.injEq] at h
      exact Or.inl (h ▸ toNumericColumn_error_classes cells 0 e' he)
    · split at h
      · rw [Except.error.injEq] at h
        exact Or.inr (Or.inl h.symm)
      · exact absurd h (by simp)
  · next hint =>
    split at h
    · split at h
      · next e' he =>
        rw [Except.error.injEq] at h
        exact Or.inl (h ▸ toNumericColumn_error_classes cells 0 e' he)
      · exact absurd h (by simp)
    · next hfloat =>
      split at h
      · exact absurd h (by simp)
      · next hcat =>
        rw [Except.error.injEq] at h
        exact Or.inr (Or.inr ⟨h.symm, by simpa using hint, by simpa using hfloat,
          hcat⟩)

/-- The errors the dtype loop can raise, with the provenance facts:
an unsupported-dtype error always comes from a declared dtype entry
whose column the projected frame actually holds. -/
theorem applyDtypes_error_classes (expected : List String)
    (dts : List (String × String)) (cols : List (List Cell)) (e : Err)
    (h : applyDtypes expected dts cols = .error e) :
    (∃ v p, e = .unableToParse v p) ∨ e = .intCastingNaN ∨
    (∃ dt c, e = .unsupportedDtype dt c ∧ dt.startsWith "int" = false ∧
      dt.startsWith "float" = false ∧ dt ≠ "category" ∧
      (c, dt) ∈ dts ∧ c ∈ expected) := by
  induction dts generalizing cols with
  | nil => exact absurd h (by simp [applyDtypes])
  | cons cd rest ih =>
    obtain ⟨c0, dt0⟩ := cd
    simp only [applyDtypes] at h
    split at h
    · rcases ih cols h with h1 | h2 | ⟨dt, c, h3, h4, h5, h6, h7, h8⟩
      · exact Or.inl h1
      · exact Or.inr (Or.inl h2)
      · exact Or.inr (Or.inr ⟨dt, c, h3, h4, h5, h6, List.mem_cons_of_mem _ h7, h8⟩)
    · next j hj =>
      split at h
      · next e' he =>
        rw [Except.error.injEq] at h
        subst h
        rcases coerceColumn_error_classes dt0 c0 _ e' he with h1 | h2 | ⟨h3, h4, h5, h6⟩
        · exact Or.inl h1
        · exact Or.inr (Or.inl h2)
        · refine Or.inr (Or.inr ⟨dt0, c0, h3, h4, h5, h6, List.mem_cons_self _ _, ?_⟩)
          by_contra hc
          rw [← findCol_eq_none_iff expected c0] at hc
          rw [hc] at hj
          cases hj
      · rcases ih _ h with h1 | h2 | ⟨dt, c, h3, h4, h5, h6, h7, h8⟩
        · exact Or.inl h1
        · exact Or.inr (Or.inl h2)
        · exact Or.inr (Or.inr ⟨dt, c, h3, h4, h5, h6, List.mem_cons_of_mem _ h7, h8⟩)

/-- When the dtype loop completes without raising, every declared dtype
whose column was actually processed is from the supported set. -/
theorem applyDtypes_ok_supported (expected : List String)
    (dts : List (String × String)) (cols res : List (List Cell))
    (h : applyDtypes expected dts cols = .ok res) :
    ∀ c dt, (c, dt) ∈ dts → c ∈ expected →
      dt.startsWith "int" = true ∨ dt.startsWith "float" = true ∨
        dt = "category" := by
  induction dts generalizing cols with
  | nil => intro c dt hmem; cases hmem
  | cons cd rest ih =>
    obtain ⟨c0, dt0⟩ := cd
    simp only [applyDtypes] at h
    intro c dt hmem hexp
    rcases List.mem_cons.1 hmem with heq | hmem'
    · obtain ⟨rfl, rfl⟩ : c = c0 ∧ dt = dt0 := by
        rw [Prod.mk.injEq] at heq; exact heq
      split at h
      · next hnone => exact absurd hexp ((findCol_eq_none_iff _ _).1 hnone)
      · split at h
        · exact absurd h (by simp)
        · next newCol hcc => exact coerceColumn_ok_supported dt c _ _ hcc
    · split at h
      · exact ih cols h c dt hmem' hexp
      · split at h
        · exact absurd h (by simp)
        · exact ih _ h c dt hmem' hexp

/-- Error form of `_prepare_features`: which validation stage produced
the error, together with the guard fact that stage checked. -/
theorem prepare_error_classes (m : Model) (f : RawFrame) (e : Err)
    (h : prepare m f = .error e) :
    (e = .missingIdColumn m.idColumn ∧ m.idColumn ∉ f.cols) ∨
    (e = .labelColumnNotAllowed ∧ "default" ∈ f.cols) ∨
    (∃ cs, e = .missingColumns cs ∧
      cs = m.expectedColumns.filter (fun c => decide (c ∉ f.cols))) ∨
    (applyDtypes m.expectedColumns m.dtypes
        (m.expectedColumns.map (fun c => (rawColumn f c).map replaceBlank)) =
      .error e) ∨
    e = .missingValues ∨
    (e = .missingIdentifier ∧ Cell.null ∈ rawIdCells m f) := by
  simp only [prepare] at h
  split at h
  · next hid =>
    split at h
    · next hdef =>
      rw [Except.error.injEq] at h
      exact Or.inr (Or.inl ⟨h.symm, hdef⟩)
    · split at h
      · split at h
        · next e' he =>
          rw [Except.error.injEq] at h
          exact Or.inr (Or.inr (Or.inr (Or.inl (h ▸ he))))
        · next cols1 hdt =>
          split at h
          · rw [Except.error.injEq] at h
            exact Or.inr (Or.inr (Or.inr (Or.inr (Or.inl h.symm))))
          · split at h
            · next hidnull =>
              rw [Except.error.injEq] at h
              obtain ⟨c, hc, hceq⟩ := List.any_eq_true.1 hidnull
              have hcnull : c = Cell.null := of_decide_eq_true hceq
              exact Or.inr (Or.inr (Or.inr (Or.inr (Or.inr
                ⟨h.symm, hcnull ▸ hc⟩))))
            · exact absurd h (by simp)
      · rw [Except.error.injEq] at h
        exact Or.inr (Or.inr (Or.inl ⟨_, h.symm, rfl⟩))
  · next hid =>
    rw [Except.error.injEq] at h
    exact Or.inl ⟨h.symm, hid⟩

/-! ### Claim theorems -/

/-- C1: for every successfully scored input row, the `is_default` field
of the resulting record equals the non-strict comparison
`probability >= threshold` against the model's single load-time
threshold (one `threshold` field of the immutable `Model`, hence the
same for every record it ever produces). -/
theorem score_is_default_eq_ge_threshold (m : Model) (f : RawFrame)
    (recs : List PredictionRecord) (h : score m f = .ok recs) :
    ∀ r ∈ recs, r.is_default = decide (r.probability ≥ m.threshold) := by
  obtain ⟨ff, ids, probs, _, _, rfl⟩ := score_ok_spec m f recs h
  intro r hr
  obtain ⟨p, _, rfl⟩ := List.mem_map.1 hr
  rfl

/-- Witness for C1 at the spec's concrete scenario (probability `0.73`
against threshold `0.5`). -/
theorem score_is_default_eq_ge_threshold_witness :
    ({ id := "1001", probability := 73 / 100, is_default := true } :
        PredictionRecord).is_default =
      decide (({ id := "1001", probability := 73 / 100, is_default := true } :
        PredictionRecord).probability ≥ testModel.threshold) :=
  score_is_default_eq_ge_threshold testModel goodFrame
    [{ id := "1001", probability := 73 / 100, is_default := true }]
    (by with_unfolding_all decide)
    { id := "1001", probability := 73 / 100, is_default := true }
    (List.Mem.head _)

/-- C2: for every batch that passes validation, `score` returns exactly
one record per input row, and the records carry the input rows'
identifiers in input order (index-preserving: the map of record ids is
the raw identifier column rendered to strings, with no reordering and no
deduplication). -/
theorem score_row_count_and_order (m : Model) (f : RawFrame)
    (recs : List PredictionRecord) (h : score m f = .ok recs) :
    recs.length = f.rows.length ∧
    recs.map (fun r => r.id) = (rawIdCells m f).map cellToString := by
  obtain ⟨ff, ids, probs, hp, hq, rfl⟩ := score_ok_spec m f recs h
  obtain ⟨hid, _, hnum, hids, hlen, _⟩ := prepare_ok_spec m f ff ids hp
  obtain ⟨hplen, _⟩ := predictProbaInner_ok_spec m ff probs hq
  have hlens : ids.length = probs.length := by rw [hlen, hplen, hnum]
  constructor
  · rw [List.length_map, List.length_zip, hlens, min_self, hplen, hnum]
  · rw [← hids, List.map_map]
    have hcomp : ((fun r : PredictionRecord => r.id) ∘
        fun p : String × ℚ =>
          ({ id := p.1, probability := p.2,
             is_default := decide (m.threshold ≤ p.2) } : PredictionRecord)) =
        Prod.fst := rfl
    rw [hcomp]
    exact List.map_fst_zip ids probs (le_of_eq hlens)

/-- Witness for C2: the single-row scenario yields one record whose id
is the rendered input identifier. -/
theorem score_row_count_and_order_witness :
    ([({ id := "1001", probability := 73 / 100, is_default := true } :
        PredictionRecord)].length = goodFrame.rows.length) ∧
    ([({ id := "1001", probability := 73 / 100, is_default := true } :
        PredictionRecord)].map (fun r => r.id) =
      (rawIdCells testModel goodFrame).map cellToString) :=
  score_row_count_and_order testModel goodFrame
    [{ id := "1001", probability := 73 / 100, is_default := true }]
    (by with_unfolding_all decide)

/-- C9: `predict_proba` and `score` agree — both validate through the
same `_prepare_features`, so they fail with the identical error on the
same frame, and on success the probability sequence of `predict_proba`
is element-wise the probability column of `score`'s records. -/
theorem predictProba_score_agree (m : Model) (f : RawFrame) :
    (∀ e, predictProba m f = .error e ↔ score m f = .error e) ∧
    (∀ recs, score m f = .ok recs →
      predictProba m f = .ok (recs.map (fun r => r.probability))) := by
  constructor
  · intro e
    rcases hp : prepare m f with e' | ⟨ff, ids⟩
    · simp [predictProba, score, hp]
    · rcases hq : predictProbaInner m ff with e' | probs
      · simp [predictProba, score, hp, hq]
      · simp [predictProba, score, hp, hq]
  · intro recs h
    obtain ⟨ff, ids, probs, hp, hq, rfl⟩ := score_ok_spec m f recs h
    obtain ⟨hid, _, hnum, hids, hlen, _⟩ := prepare_ok_spec m f ff ids hp
    obtain ⟨hplen, _⟩ := predictProbaInner_ok_spec m ff probs hq
    have hlens : probs.length ≤ ids.length := by rw [hlen, hplen, hnum]
    have hpp : predictProba m f = .ok probs := by simp [predictProba, hp, hq]
    rw [hpp]
    congr 1
    rw [List.map_map]
    have hcomp : ((fun r : PredictionRecord => r.probability) ∘
        fun p : String × ℚ =>
          ({ id := p.1, probability := p.2,
             is_default := decide (m.threshold ≤ p.2) } : PredictionRecord)) =
        Prod.snd := rfl
    rw [hcomp, List.map_snd_zip ids probs hlens]

/-- Witness for C9 on the concrete scenario. -/
theorem predictProba_score_agree_witness :
    predictProba testModel goodFrame =
      .ok ([({ id := "1001", probability := 73 / 100, is_default := true } :
        PredictionRecord)].map (fun r => r.probability)) :=
  (predictProba_score_agree testModel goodFrame).2
    [{ id := "1001", probability := 73 / 100, is_default := true }]
    (by with_unfolding_all decide)

/-- C3: the validation checks run in the fixed source order with
first-applicable-rule-wins semantics — a payload missing both the
identifier column and some expected feature column is reported with the
missing-identifier-column failure; and whenever the missing-columns
failure is reported, it names every missing expected column (the full
filter of the expected list against the payload header), not just the
first. -/
theorem validation_order_and_missing_columns (m : Model) (f : RawFrame) :
    (m.idColumn ∉ f.cols → (∃ c ∈ m.expectedColumns, c ∉ f.cols) →
      prepare m f = .error (.missingIdColumn m.idColumn)) ∧
    (∀ cs, prepare m f = .error (.missingColumns cs) →
      cs = m.expectedColumns.filter (fun c => decide (c ∉ f.cols))) := by
  constructor
  · intro hid _
    simp only [prepare]
    rw [if_neg hid]
  · intro cs h
    rcases prepare_error_classes m f _ h with ⟨h1, _⟩ | ⟨h1, _⟩ |
      ⟨cs', h1, h2⟩ | h1 | h1 | ⟨h1, _⟩
    · cases h1
    · cases h1
    · rw [Err.missingColumns.injEq] at h1
      exact h1 ▸ h2
    · rcases applyDtypes_error_classes _ _ _ _ h1 with ⟨v, p, h2⟩ | h2 |
        ⟨dt, c, h2, _⟩
      · cases h2
      · cases h2
      · cases h2
    · cases h1
    · cases h1

/-- Witness for C3: a payload missing both `ID` and `AGE` is rejected
for the identifier column, not the columns. -/
theorem validation_order_and_missing_columns_witness :
    prepare testModel missingBothFrame = .error (.missingIdColumn "ID") :=
  (validation_order_and_missing_columns testModel missingBothFrame).1
    (by decide) ⟨"AGE", by decide, by decide⟩

/-- C4 (code bug): a two-row batch whose second row holds an empty
string in the int-declared column `AGE` is NOT rejected with the
missing-values `ValidationError` — the blank is replaced by the null
sentinel and then `.astype("int64")` raises the pandas
`IntCastingNaNError` (a bare `ValueError` the service does not catch)
before the missing-values check runs.  The same payload shape with the
blank in a float-declared column does reach the missing-values check, as
the claim describes. -/
theorem blank_int_cell_raises_pandas_error :
    score testModel blankAgeFrame = .error .intCastingNaN ∧
    Err.intCastingNaN.isModelValidationError = false ∧
    Err.intCastingNaN ≠ Err.missingValues ∧
    score testModel blankLimitFrame = .error .missingValues := by
  with_unfolding_all decide

/-- C5 counterexample: an unparsable value `"abc"` in the int-declared
column `AGE` raises the numeric parser's ValueError carrying the value
and its row position — it is not a model `ValidationError`, and its
message does not contain the column name `AGE` anywhere. -/
theorem unparsable_cell_counterexample :
    prepare testModel abcFrame = .error (.unableToParse "abc" 0) ∧
    (Err.unableToParse "abc" 0).isModelValidationError = false ∧
    (Err.unableToParse "abc" 0).message =
      "Unable to parse string \x22abc\x22 at position 0" ∧
    ((Err.unableToParse "abc" 0).message.splitOn "AGE").length = 1 := by
  with_unfolding_all decide

/-- C5 amended: an unparsable cell in an int- or float-declared column
makes validation fail with the numeric parser's raw ValueError (naming
the offending value and position, not the column, and not a
`ValidationError`); a declared dtype outside int*/float*/category is the
only source of the unsupported-dtype `ValidationError`, which names both
the dtype and the column, and no payload whose processed dtype map holds
such a dtype is ever accepted. -/
theorem unparsable_and_unsupported_dtype (m : Model) (f : RawFrame) :
    (∀ e, prepare m f = .error e → e.isModelValidationError = false →
      (∃ v p, e = .unableToParse v p) ∨ e = .intCastingNaN) ∧
    (∀ dt c, prepare m f = .error (.unsupportedDtype dt c) →
      dt.startsWith "int" = false ∧ dt.startsWith "float" = false ∧
      dt ≠ "category" ∧ (c, dt) ∈ m.dtypes ∧ c ∈ m.expectedColumns) ∧
    (∀ ff ids, prepare m f = .ok (ff, ids) →
      ∀ c dt, (c, dt) ∈ m.dtypes → c ∈ m.expectedColumns →
        dt.startsWith "int" = true ∨ dt.startsWith "float" = true ∨
          dt = "category") := by
  refine ⟨?_, ?_, ?_⟩
  · intro e h hval
    rcases prepare_error_classes m f e h with ⟨h1, _⟩ | ⟨h1, _⟩ |
      ⟨cs, h1, _⟩ | h1 | h1 | ⟨h1, _⟩
    · rw [h1] at hval; cases hval
    · rw [h1] at hval; cases hval
    · rw [h1] at hval; cases hval
    · rcases applyDtypes_error_classes _ _ _ _ h1 with h2 | h2 |
        ⟨dt, c, h2, _⟩
      · exact Or.inl h2
      · exact Or.inr h2
      · rw [h2] at hval; cases hval
    · rw [h1] at hval; cases hval
    · rw [h1] at hval; cases hval
  · intro dt c h
    rcases prepare_error_classes m f _ h with ⟨h1, _⟩ | ⟨h1, _⟩ |
      ⟨cs, h1, _⟩ | h1 | h1 | ⟨h1, _⟩
    · cases h1
    · cases h1
    · cases h1
    · rcases applyDtypes_error_classes _ _ _ _ h1 with ⟨v, p, h2⟩ | h2 |
        ⟨dt', c', h2, h3, h4, h5, h6, h7⟩
      · cases h2
      · cases h2
      · obtain ⟨h2a, h2b⟩ : dt = dt' ∧ c = c' := by
          rw [Err.unsupportedDtype.injEq] at h2; exact h2
        subst h2a; subst h2b
        exact ⟨h3, h4, h5, h6, h7⟩
    · cases h1
    · cases h1
  · intro ff ids h
    simp only [prepare] at h
    split at h
    · split at h
      · exact absurd h (by simp)
      · split at h
        · split at h
          · exact absurd h (by simp)
          · next cols1 hdt =>
            split at h
            · exact absurd h (by simp)
            · split at h
              · exact absurd h (by simp)
              · exact applyDtypes_ok_supported _ _ _ _ hdt
        · exact absurd h (by simp)
    · exact absurd h (by simp)

/-- Witness for the amended C5 at a signature declaring dtype
`"object"`: the unsupported-dtype error names that dtype and column. -/
theorem unparsable_and_unsupported_dtype_witness :
    ("object" : String).startsWith "int" = false ∧
    ("object" : String).startsWith "float" = false ∧
    ("object" : String) ≠ "category" ∧
    ("AGE", "object") ∈ objModel.dtypes ∧
    "AGE" ∈ objModel.expectedColumns :=
  (unparsable_and_unsupported_dtype objModel goodFrame).2.1 "object" "AGE"
    (by with_unfolding_all decide)

/-- C6: a batch whose row count exceeds the configured maximum fails
with `BatchTooLarge` whose message names the observed count and the
limit.  The guard fires for EVERY frame — including frames that would
fail schema validation — so it runs before any identifier/column/dtype
check, and zero rows are scored. -/
theorem batch_guard (maxRows : Nat) (m : Model) (f : RawFrame)
    (h : maxRows < f.rows.length) :
    predictBatch maxRows m f = .error (.batchTooLarge f.rows.length maxRows) ∧
    (Err.batchTooLarge f.rows.length maxRows).message =
      "Batch size " ++ toString f.rows.length ++ " exceeds limit of " ++
        toString maxRows ++ " rows." := by
  refine ⟨?_, rfl⟩
  simp only [predictBatch]
  rw [if_pos h]

/-- Witness for C6: an over-limit frame that is ALSO missing the
identifier column is still rejected as too large, showing the guard
precedes schema validation. -/
theorem batch_guard_witness :
    predictBatch 0 testModel missingBothFrame =
      .error (.batchTooLarge 1 0) :=
  (batch_guard 0 testModel missingBothFrame (by decide)).1

/-- C7 (code bug): `_predict_proba` never raises
`UnsupportedEstimator`/`ModelError` for a non-binary estimator, contrary
to its own docstring — a three-class estimator's output is silently
accepted (class index 1 taken as the positive class), and a one-column
estimator raises a bare numpy IndexError, which is not a model error. -/
theorem non_binary_estimator_not_rejected :
    score threeClassModel goodFrame =
      .ok [{ id := "1001", probability := 3 / 10, is_default := false }] ∧
    score oneColumnModel goodFrame = .error .indexError ∧
    Err.indexError.isModelValidationError = false ∧
    score testModel goodFrame =
      .ok [{ id := "1001", probability := 73 / 100, is_default := true }] := by
  with_unfolding_all decide

/-- C8: every accepted payload yields a feature frame holding exactly
the expected columns in the signature's declared order with no null cell
anywhere; raw columns that are neither expected nor the identifier never
appear in it (they are dropped without error). -/
theorem prepared_frame_exact_and_null_free (m : Model) (f : RawFrame)
    (ff : FeatureFrame) (ids : List String)
    (h : prepare m f = .ok (ff, ids)) :
    ff.colNames = m.expectedColumns ∧
    (∀ col ∈ ff.colsData, ∀ c ∈ col, c ≠ Cell.null) ∧
    (∀ c, c ∈ f.cols → c ∉ m.expectedColumns → c ∉ ff.colNames) := by
  obtain ⟨_, hnames, _, _, _, hnn⟩ := prepare_ok_spec m f ff ids h
  exact ⟨hnames, hnn, fun c _ hc => hnames ▸ hc⟩

/-- Witness for C8: the payload with the unrecognized extra column
`EXTRA` is accepted, and `EXTRA` is absent from the prepared frame. -/
theorem prepared_frame_exact_and_null_free_witness :
    ("EXTRA" : String) ∉
      (⟨["LIMIT_BAL", "AGE"], 1, [[Cell.rat 100], [Cell.int 40]]⟩ :
        FeatureFrame).colNames :=
  (prepared_frame_exact_and_null_free testModel extraColFrame
      ⟨["LIMIT_BAL", "AGE"], 1, [[Cell.rat 100], [Cell.int 40]]⟩ ["7"]
      (by with_unfolding_all decide)).2.2 "EXTRA" (by decide) (by decide)

/-- C10: the blank-string→null replacement touches only the projected
feature columns, never the identifier column — the missing-identifier
failure can only arise from a literally null identifier cell (an empty
or whitespace-only string identifier passes the check), and accepted
payloads return the raw identifier cells rendered to strings, so an
empty-string identifier is echoed back verbatim. -/
theorem identifier_column_not_blank_replaced (m : Model) (f : RawFrame) :
    (prepare m f = .error .missingIdentifier → Cell.null ∈ rawIdCells m f) ∧
    (∀ ff ids, prepare m f = .ok (ff, ids) →
      ids = (rawIdCells m f).map cellToString) := by
  constructor
  · intro h
    rcases prepare_error_classes m f _ h with ⟨h1, _⟩ | ⟨h1, _⟩ |
      ⟨cs, h1, _⟩ | h1 | h1 | ⟨_, h2⟩
    · cases h1
    · cases h1
    · cases h1
    · rcases applyDtypes_error_classes _ _ _ _ h1 with ⟨v, p, h2⟩ | h2 |
        ⟨dt, c, h2, _⟩
      · cases h2
      · cases h2
      · cases h2
    · cases h1
    · exact h2
  · intro ff ids h
    exact (prepare_ok_spec m f ff ids h).2.2.2.1

/-- Witness for C10: a whitespace-only identifier survives validation
and is echoed back unchanged. -/
theorem identifier_column_not_blank_replaced_witness :
    (["  "] : List String) =
      (rawIdCells testModel blankIdFrame).map cellToString :=
  (identifier_column_not_blank_replaced testModel blankIdFrame).2
    ⟨["LIMIT_BAL", "AGE"], 1, [[Cell.rat 100], [Cell.int 40]]⟩ ["  "]
    (by with_unfolding_all decide)

end CreditDefault
